import Mathlib

/-!
Verification of the VitalSigns client-side risk data synchronization and
visualization layer.  The definitions below are shallow embeddings of the
TypeScript source under src/frontend/src: risk encoding utilities
(utils/risk.ts), react-query hook configurations (hooks/useAlerts.ts and
the hooks in components/RiskBadge.tsx), and the cache behaviour those
hooks configure.  Numeric scores are JavaScript floats; we model them as
rationals, which is exact for every literal appearing in the source and
in the claims.
-/

namespace VitalSigns

/-- The closed RiskLevel enumeration from types, ordered by severity. -/
inductive RiskLevel where
  | minimal
  | low
  | moderate
  | high
  | critical
deriving DecidableEq, Repr

/-- Severity rank of a risk level: minimal < low < moderate < high < critical. -/
def severityRank : RiskLevel → Nat
  | .minimal => 0
  | .low => 1
  | .moderate => 2
  | .high => 3
  | .critical => 4

/-- Embedding of getRiskLevelFromScore from utils/risk.ts lines 68-74:
a cascade of lower-bound threshold tests. -/
def getRiskLevelFromScore (score : ℚ) : RiskLevel :=
  if score ≥ 80 then .critical
  else if score ≥ 60 then .high
  else if score ≥ 40 then .moderate
  else if score ≥ 20 then .low
  else .minimal

/-- Embedding of getMarkerSize from utils/risk.ts lines 76-79:
scale marker size based on risk score (8-24 pixels), no clamping. -/
def getMarkerSize (riskScore : ℚ) : ℚ :=
  8 + (riskScore / 100) * 16

/-- The RISK_COLORS table from utils/risk.ts lines 3-9, as an association
list in source order. -/
def RISK_COLORS : List (String × String) :=
  [("minimal", "#10B981"),
   ("low", "#84CC16"),
   ("moderate", "#F59E0B"),
   ("high", "#F97316"),
   ("critical", "#EF4444")]

/-- The DISEASE_COLORS table from utils/risk.ts lines 26-35. -/
def DISEASE_COLORS : List (String × String) :=
  [("malaria", "#8B5CF6"),
   ("cholera", "#06B6D4"),
   ("measles", "#EC4899"),
   ("dengue", "#F97316"),
   ("respiratory", "#6366F1"),
   ("typhoid", "#14B8A6"),
   ("ebola", "#DC2626"),
   ("covid", "#64748B")]

/-- JavaScript a-or-b on a possibly-absent string: a lookup miss
(undefined) or an empty string is falsy and yields the fallback. -/
def jsOrString (v : Option String) (fallback : String) : String :=
  match v with
  | some s => if s = "" then fallback else s
  | none => fallback

/-- Embedding of getRiskColor from utils/risk.ts lines 37-39.  At the
type level the TS argument is RiskLevel, but the implementation guards
against unknown or absent runtime values, so the model takes an optional
string; the fallback literal is the minimal entry of RISK_COLORS. -/
def getRiskColor (level : Option String) : String :=
  match level with
  | some l => jsOrString (RISK_COLORS.lookup l) "#10B981"
  | none => "#10B981"

/-- Embedding of getDiseaseColor from utils/risk.ts lines 60-62. -/
def getDiseaseColor (disease : String) : String :=
  jsOrString (DISEASE_COLORS.lookup disease) "#64748B"

/-- Embedding of the inline score-to-level conditional chain in the
RegionDetail index breakdown (src/unnamed/part_004 lines 354-357). -/
def regionDetailIndexLevel (value : ℚ) : RiskLevel :=
  if value ≥ 80 then .critical
  else if value ≥ 60 then .high
  else if value ≥ 40 then .moderate
  else if value ≥ 20 then .low
  else .minimal

/-- C1: getRiskLevelFromScore returns critical when score ≥ 80, high on
[60,80), moderate on [40,60), low on [20,40), and minimal otherwise; the
lower bound of each band is inclusive, the bands partition the score
line without gaps or overlaps, and out-of-range input follows the same
rule (every score ≥ 80 is critical, every score < 0 is minimal). -/
theorem getRiskLevelFromScore_bands (s : ℚ) :
    (80 ≤ s → getRiskLevelFromScore s = .critical) ∧
    (60 ≤ s → s < 80 → getRiskLevelFromScore s = .high) ∧
    (40 ≤ s → s < 60 → getRiskLevelFromScore s = .moderate) ∧
    (20 ≤ s → s < 40 → getRiskLevelFromScore s = .low) ∧
    (s < 20 → getRiskLevelFromScore s = .minimal) := by
  unfold getRiskLevelFromScore
  split_ifs with h1 h2 h3 h4 <;>
    refine ⟨fun ha => ?_, fun ha hb => ?_, fun ha hb => ?_,
      fun ha hb => ?_, fun ha => ?_⟩ <;>
    first
      | rfl
      | (exfalso; simp only [ge_iff_le, not_le] at *; linarith)

/-- Witness for C1 at concrete scores 85 (above range maps to critical)
and -5 (below range maps to minimal). -/
theorem getRiskLevelFromScore_bands_witness :
    getRiskLevelFromScore 85 = .critical ∧
    getRiskLevelFromScore (-5) = .minimal :=
  ⟨(getRiskLevelFromScore_bands 85).1 (by norm_num),
   (getRiskLevelFromScore_bands (-5)).2.2.2.2 (by norm_num)⟩

/-- C3: getRiskLevelFromScore always returns one of the five levels and
is monotonically non-decreasing in severity as the score increases, with
the boundary values getRiskLevelFromScore 80 = critical,
getRiskLevelFromScore 79.9 = high and getRiskLevelFromScore 0 = minimal. -/
theorem getRiskLevelFromScore_monotone (s1 s2 : ℚ) :
    (s1 ≤ s2 →
      severityRank (getRiskLevelFromScore s1) ≤
        severityRank (getRiskLevelFromScore s2)) ∧
    getRiskLevelFromScore s1 ∈
      [RiskLevel.minimal, .low, .moderate, .high, .critical] ∧
    getRiskLevelFromScore 80 = .critical ∧
    getRiskLevelFromScore (799/10) = .high ∧
    getRiskLevelFromScore 0 = .minimal := by
  refine ⟨fun h => ?_, ?_, by norm_num [getRiskLevelFromScore],
    by norm_num [getRiskLevelFromScore], by norm_num [getRiskLevelFromScore]⟩
  · unfold getRiskLevelFromScore
    split_ifs <;> first | decide | (simp only [ge_iff_le, not_le] at *; linarith)
  · unfold getRiskLevelFromScore
    split_ifs <;> decide

/-- Witness for C3 at the concrete pair 30 ≤ 70. -/
theorem getRiskLevelFromScore_monotone_witness :
    severityRank (getRiskLevelFromScore 30) ≤
      severityRank (getRiskLevelFromScore 70) :=
  (getRiskLevelFromScore_monotone 30 70).1 (by norm_num)

/-- C4: getMarkerSize is the linear interpolation 8 + (score/100)*16; it
is strictly increasing, sends 0 to 8 and 100 to 24, its range over
inputs in [0,100] is exactly [8,24], and it is not clamped: some input
below 0 gives a result below 8 and some input above 100 a result above
24. -/
theorem getMarkerSize_spec (s s1 s2 y : ℚ) :
    getMarkerSize s = 8 + (s / 100) * 16 ∧
    (s1 < s2 → getMarkerSize s1 < getMarkerSize s2) ∧
    getMarkerSize 0 = 8 ∧
    getMarkerSize 100 = 24 ∧
    (0 ≤ s → s ≤ 100 → 8 ≤ getMarkerSize s ∧ getMarkerSize s ≤ 24) ∧
    (8 ≤ y → y ≤ 24 → ∃ x, 0 ≤ x ∧ x ≤ 100 ∧ getMarkerSize x = y) ∧
    (∃ x, x < 0 ∧ getMarkerSize x < 8) ∧
    (∃ x, 100 < x ∧ 24 < getMarkerSize x) := by
  unfold getMarkerSize
  refine ⟨rfl, fun h => by linarith, by norm_num, by norm_num,
    fun h0 h1 => ⟨by linarith, by linarith⟩,
    fun hy0 hy1 => ⟨(y - 8) * 100 / 16, by linarith, by linarith, by ring⟩,
    ⟨-10, by norm_num, by norm_num⟩,
    ⟨200, by norm_num, by norm_num⟩⟩

/-- Witness for C4: strict monotonicity at 25 < 75, the range bounds at
score 50, and surjectivity onto the value 16. -/
theorem getMarkerSize_spec_witness :
    getMarkerSize 25 < getMarkerSize 75 ∧
    (8 ≤ getMarkerSize 50 ∧ getMarkerSize 50 ≤ 24) ∧
    (∃ x, 0 ≤ x ∧ x ≤ 100 ∧ getMarkerSize x = 16) :=
  ⟨(getMarkerSize_spec 0 25 75 0).2.1 (by norm_num),
   (getMarkerSize_spec 50 0 0 0).2.2.2.2.1 (by norm_num) (by norm_num),
   (getMarkerSize_spec 0 0 0 16).2.2.2.2.2.1 (by norm_num) (by norm_num)⟩

/-- C9: the inline conditional chain in the RegionDetail index breakdown
computes exactly the same risk level as getRiskLevelFromScore on every
input. -/
theorem regionDetailIndexLevel_eq_getRiskLevelFromScore (v : ℚ) :
    regionDetailIndexLevel v = getRiskLevelFromScore v := rfl

/-- A key absent from the key column of an association list is a lookup
miss. -/
theorem lookup_eq_none_of_not_mem_keys (table : List (String × String))
    (k : String) (h : k ∉ table.map Prod.fst) : table.lookup k = none := by
  induction table with
  | nil => rfl
  | cons p t ih =>
    obtain ⟨a, b⟩ := p
    have h1 : k ≠ a := fun e => h (by simp [e])
    have h2 : k ∉ t.map Prod.fst := fun m => h (by simp [m])
    have hb : (k == a) = false := beq_eq_false_iff_ne.mpr h1
    simp [List.lookup, hb, ih h2]

/-- C5: getRiskColor is total and never throws (it is a Lean function
into String); on the five known level names it is one-to-one, and every
unknown or absent level input is sent to the color of the minimal
level. -/
theorem getRiskColor_spec (l1 l2 : String) (k : Option String) :
    (l1 ∈ RISK_COLORS.map Prod.fst → l2 ∈ RISK_COLORS.map Prod.fst →
      getRiskColor (some l1) = getRiskColor (some l2) → l1 = l2) ∧
    ((∀ l, k = some l → l ∉ RISK_COLORS.map Prod.fst) →
      getRiskColor k = getRiskColor (some "minimal") ∧
      getRiskColor k = "#10B981") := by
  constructor
  · intro h1 h2
    fin_cases h1 <;> fin_cases h2 <;> intro he <;> first | rfl | exact absurd he (by decide)
  · intro hk
    match k with
    | none => exact ⟨rfl, rfl⟩
    | some l =>
      have hm : l ∉ RISK_COLORS.map Prod.fst := hk l rfl
      have : RISK_COLORS.lookup l = none :=
        lookup_eq_none_of_not_mem_keys RISK_COLORS l hm
      have hg : getRiskColor (some l) = "#10B981" := by
        simp [getRiskColor, this, jsOrString]
      exact ⟨by rw [hg]; decide, hg⟩

/-- Witness for C5: the one-to-one property applied at the known level
high, and the fallback applied at the unknown level name flu. -/
theorem getRiskColor_spec_witness :
    ("high" : String) = "high" ∧
    getRiskColor (some "flu") = getRiskColor (some "minimal") :=
  ⟨(getRiskColor_spec "high" "high" none).1 (by decide) (by decide) rfl,
   ((getRiskColor_spec "" "" (some "flu")).2
     (by intro l e; rw [Option.some.injEq] at e; subst e; decide)).1⟩

/-- C10: getDiseaseColor is not injective across known and unknown
disease keys: the fallback default color for any unknown key equals the
table color of covid, so every key outside the table is visually
indistinguishable from covid. -/
theorem getDiseaseColor_covid_collision (k : String) :
    getDiseaseColor "covid" = "#64748B" ∧
    (k ∉ DISEASE_COLORS.map Prod.fst →
      getDiseaseColor k = getDiseaseColor "covid") ∧
    (∃ k1 k2 : String, k1 ≠ k2 ∧ k1 ∈ DISEASE_COLORS.map Prod.fst ∧
      k2 ∉ DISEASE_COLORS.map Prod.fst ∧
      getDiseaseColor k1 = getDiseaseColor k2) := by
  refine ⟨by decide, fun hm => ?_, "covid", "influenza", by decide, by decide,
    by decide, by decide⟩
  have : DISEASE_COLORS.lookup k = none :=
    lookup_eq_none_of_not_mem_keys DISEASE_COLORS k hm
  simp [getDiseaseColor, this, jsOrString]
  decide

/-- Witness for C10: the fallback-equals-covid property applied at the
unknown key flu. -/
theorem getDiseaseColor_covid_collision_witness :
    getDiseaseColor "flu" = getDiseaseColor "covid" :=
  (getDiseaseColor_covid_collision "flu").2.1 (by decide)

/-- The optional filter parameters of useAlerts (hooks/useAlerts.ts
lines 4-10). -/
structure AlertParams where
  status : Option String
  severity : Option String
  alertType : Option String
  regionCode : Option String
  limit : Option Int
deriving DecidableEq, Repr

/-- One element of a react-query cache key: the hooks use string
literals, optional strings, numbers, optional numbers and the optional
params object of useAlerts. -/
inductive KeyPart where
  | str (s : String)
  | num (n : Int)
  | optStr (s : Option String)
  | optNum (n : Option Int)
  | params (p : Option AlertParams)
deriving DecidableEq, Repr

/-- A react-query cache key: the array passed as queryKey. -/
abbrev QueryKey : Type := List KeyPart

/-- The observable configuration a useQuery hook passes to react-query:
its cache key, its polling interval in milliseconds (none when the
source sets no refetchInterval), and its enabled flag (true when the
source sets none). -/
structure QueryConfig where
  queryKey : QueryKey
  refetchInterval : Option Nat
  enabled : Bool
deriving DecidableEq, Repr

/-- Embedding of useAlerts (hooks/useAlerts.ts lines 4-16). -/
def useAlerts (p : Option AlertParams) : QueryConfig :=
  { queryKey := [.str "alerts", .params p]
    refetchInterval := some (60 * 1000)
    enabled := true }

/-- Embedding of useActiveAlerts (hooks/useAlerts.ts lines 18-24). -/
def useActiveAlerts (severity : Option String) (limit : Option Int) :
    QueryConfig :=
  { queryKey := [.str "alerts", .str "active", .optStr severity, .optNum limit]
    refetchInterval := some (60 * 1000)
    enabled := true }

/-- Embedding of useAlert (hooks/useAlerts.ts lines 26-32); the doubled
negation of a number is false exactly on zero. -/
def useAlert (id : Int) : QueryConfig :=
  { queryKey := [.str "alerts", .num id]
    refetchInterval := none
    enabled := decide (id ≠ 0) }

/-- Embedding of useRiskSummary (components/RiskBadge.tsx lines
102-108). -/
def useRiskSummary (continent level : Option String) : QueryConfig :=
  { queryKey := [.str "risks", .str "summary", .optStr continent, .optStr level]
    refetchInterval := some (5 * 60 * 1000)
    enabled := true }

/-- Embedding of useRiskMap (components/RiskBadge.tsx lines 110-116). -/
def useRiskMap (level : Option String) : QueryConfig :=
  { queryKey := [.str "risks", .str "map", .optStr level]
    refetchInterval := some (5 * 60 * 1000)
    enabled := true }

/-- Embedding of useRegionRisks (components/RiskBadge.tsx lines
118-124); the doubled negation of a string is false exactly on the
empty string. -/
def useRegionRisks (regionCode : String) : QueryConfig :=
  { queryKey := [.str "risks", .str "region", .str regionCode]
    refetchInterval := none
    enabled := decide (regionCode ≠ "") }

/-- Embedding of useDiseaseRisks (components/RiskBadge.tsx lines
126-137). -/
def useDiseaseRisks (diseaseType : String) (riskLevel : Option String)
    (limit : Option Int) : QueryConfig :=
  { queryKey := [.str "risks", .str "disease", .str diseaseType,
      .optStr riskLevel, .optNum limit]
    refetchInterval := none
    enabled := decide (diseaseType ≠ "") }

/-- C6: the refresh cadences are fixed per resource family: risk summary
and map snapshot poll every 300000 ms, alert lists every 60000 ms, and
single-region and disease-specific queries have no polling interval and
are enabled exactly when their required key parameter is non-empty. -/
theorem refreshCadences (continent level sev riskLevel : Option String)
    (p : Option AlertParams) (lim dlim : Option Int) (rc dt : String) :
    (useRiskSummary continent level).refetchInterval = some 300000 ∧
    (useRiskMap level).refetchInterval = some 300000 ∧
    (useAlerts p).refetchInterval = some 60000 ∧
    (useActiveAlerts sev lim).refetchInterval = some 60000 ∧
    (useRegionRisks rc).refetchInterval = none ∧
    (useDiseaseRisks dt riskLevel dlim).refetchInterval = none ∧
    ((useRegionRisks rc).enabled = true ↔ rc ≠ "") ∧
    ((useDiseaseRisks dt riskLevel dlim).enabled = true ↔ dt ≠ "") := by
  refine ⟨rfl, rfl, rfl, rfl, rfl, rfl, ?_, ?_⟩ <;>
    simp [useRegionRisks, useDiseaseRisks]

/-- A cached query result: the data (opaque to this layer) and a
staleness mark; a stale entry is refetched on its next read. -/
structure CacheEntry where
  value : String
  stale : Bool
deriving DecidableEq, Repr

/-- The query cache: entries keyed by query key. -/
abbrev Cache : Type := List (QueryKey × CacheEntry)

/-- Whether a key falls under a filter key: the filter is an initial
segment of the key, element by element. -/
def keyUnder : QueryKey → QueryKey → Bool
  | [], _ => true
  | _ :: _, [] => false
  | f :: fs, p :: ps => decide (f = p) && keyUnder fs ps

/-- Modelled from the spec: the queryClient.invalidateQueries operation
of the react-query library (which is a dependency, not part of src)
marks stale every cache entry whose key lies under the given filter
key, regardless of which filter parameters produced it; other entries
are untouched. -/
def invalidateQueries (filter : QueryKey) (c : Cache) : Cache :=
  c.map fun e => if keyUnder filter e.1 then (e.1, { e.2 with stale := true }) else e

/-- Look up the cache entry stored for a key. -/
def lookupEntry (k : QueryKey) (c : Cache) : Option CacheEntry :=
  (c.find? fun e => decide (e.1 = k)).map Prod.snd

/-- Modelled from the spec: a read of key k triggers a fresh fetch
exactly when the cache holds no entry for k or holds a stale one. -/
def nextReadFetches (k : QueryKey) (c : Cache) : Bool :=
  match lookupEntry k c with
  | none => true
  | some e => e.stale

/-- Outcome of an acknowledge or resolve mutation request. -/
inductive MutationResult where
  | success (updatedAlert : String)
  | failure (error : String)
deriving DecidableEq, Repr

/-- Embedding of the useAcknowledgeAlert mutation handlers
(hooks/useAlerts.ts lines 34-44): on success the onSuccess callback
invalidates the alerts key family; the source registers no onError
callback, so a failure changes nothing. -/
def runAcknowledgeAlert (r : MutationResult) (c : Cache) : Cache :=
  match r with
  | .success _ => invalidateQueries [.str "alerts"] c
  | .failure _ => c

/-- Embedding of the useResolveAlert mutation handlers
(hooks/useAlerts.ts lines 46-63): identical cache effect to
acknowledge. -/
def runResolveAlert (r : MutationResult) (c : Cache) : Cache :=
  match r with
  | .success _ => invalidateQueries [.str "alerts"] c
  | .failure _ => c

/-- Invalidation commutes with lookup: the entry found after an
invalidation is the entry found before, marked stale exactly when its
key lies under the filter. -/
theorem lookupEntry_invalidateQueries (f k : QueryKey) (c : Cache) :
    lookupEntry k (invalidateQueries f c) =
      (lookupEntry k c).map
        fun e => if keyUnder f k then { e with stale := true } else e := by
  induction c with
  | nil => rfl
  | cons hd t ih =>
    obtain ⟨k0, e0⟩ := hd
    by_cases h : k0 = k
    · subst h
      by_cases hf : keyUnder f k0 <;>
        simp [invalidateQueries, lookupEntry, List.find?, hf]
    · have hd : (decide (k0 = k)) = false := decide_eq_false h
      by_cases hf : keyUnder f k0 <;>
        simpa [invalidateQueries, lookupEntry, List.find?, hf, hd] using ih

/-- C2: after a successful acknowledge or resolve mutation, every cache
entry whose key lies in the alerts family is invalidated, so its next
read triggers a fresh fetch; every entry outside the family keeps
exactly its previous entry, and the risk summary and risk map keys are
outside the family. -/
theorem mutationSuccess_invalidates_alerts (c : Cache) (k : QueryKey)
    (e : CacheEntry) (a : String) (continent level : Option String)
    (h : lookupEntry k c = some e) :
    (keyUnder [.str "alerts"] k = true →
      nextReadFetches k (runAcknowledgeAlert (.success a) c) = true ∧
      nextReadFetches k (runResolveAlert (.success a) c) = true) ∧
    (keyUnder [.str "alerts"] k = false →
      lookupEntry k (runAcknowledgeAlert (.success a) c) = some e ∧
      lookupEntry k (runResolveAlert (.success a) c) = some e) ∧
    keyUnder [.str "alerts"] (useRiskSummary continent level).queryKey = false ∧
    keyUnder [.str "alerts"] (useRiskMap level).queryKey = false := by
  refine ⟨fun hk => ?_, fun hk => ?_, rfl, rfl⟩ <;>
    simp [runAcknowledgeAlert, runResolveAlert, nextReadFetches,
      lookupEntry_invalidateQueries, h, hk]

/-- Witness for C2 on a concrete two-entry cache holding one active
alerts list and one risk summary: after a successful acknowledge the
alerts entry refetches on next read and the risks entry is unchanged. -/
theorem mutationSuccess_invalidates_alerts_witness :
    nextReadFetches (useActiveAlerts none none).queryKey
      (runAcknowledgeAlert (.success "ok")
        [((useActiveAlerts none none).queryKey, ⟨"alerts-data", false⟩),
         ((useRiskSummary none none).queryKey, ⟨"summary-data", false⟩)]) =
      true ∧
    lookupEntry (useRiskSummary none none).queryKey
      (runAcknowledgeAlert (.success "ok")
        [((useActiveAlerts none none).queryKey, ⟨"alerts-data", false⟩),
         ((useRiskSummary none none).queryKey, ⟨"summary-data", false⟩)]) =
      some ⟨"summary-data", false⟩ :=
  ⟨((mutationSuccess_invalidates_alerts
      [((useActiveAlerts none none).queryKey, ⟨"alerts-data", false⟩),
       ((useRiskSummary none none).queryKey, ⟨"summary-data", false⟩)]
      (useActiveAlerts none none).queryKey ⟨"alerts-data", false⟩
      "ok" none none (by decide)).1 (by decide)).1,
   ((mutationSuccess_invalidates_alerts
      [((useActiveAlerts none none).queryKey, ⟨"alerts-data", false⟩),
       ((useRiskSummary none none).queryKey, ⟨"summary-data", false⟩)]
      (useRiskSummary none none).queryKey ⟨"summary-data", false⟩
      "ok" none none (by decide)).2.1 (by decide)).1⟩

/-- C7: a failed acknowledge or resolve mutation performs no cache
invalidation: the whole cache, and hence every entry, is exactly as it
was before the mutation was issued. -/
theorem mutationFailure_preserves_cache (c : Cache) (err : String)
    (k : QueryKey) :
    runAcknowledgeAlert (.failure err) c = c ∧
    runResolveAlert (.failure err) c = c ∧
    lookupEntry k (runAcknowledgeAlert (.failure err) c) = lookupEntry k c ∧
    lookupEntry k (runResolveAlert (.failure err) c) = lookupEntry k c :=
  ⟨rfl, rfl, rfl, rfl⟩

/-- Modelled from the spec: the per-key fetch state the concurrency
model of §5 prescribes (the fetch machinery lives inside the react-query
dependency, not under src).  For one cache key it holds the cached
value, the generation number of the last issued request and the
generation number of the last applied result. -/
structure KeyState where
  value : Option String
  lastIssued : Nat
  lastApplied : Nat
deriving DecidableEq, Repr

/-- Modelled from the spec: issuing a fetch for the key draws the next
generation number and records it as last issued; the request carries its
generation. -/
def issueFetch (s : KeyState) : KeyState × Nat :=
  ({ s with lastIssued := s.lastIssued + 1 }, s.lastIssued + 1)

/-- Modelled from the spec: a resolving request applies its result only
when no result of a newer or equal generation has been applied already;
otherwise the result is discarded, so the last-issued request that
resolves wins. -/
def applyResult (s : KeyState) (g : Nat) (v : String) : KeyState :=
  if s.lastApplied < g then { s with value := some v, lastApplied := g } else s

/-- C8: issue fetch A for a key, then fetch B for the same key before A
resolves; if the result of B is applied first and the result of A
arrives later, the late result is discarded (applying it changes
nothing) and the key ends holding the value from B, never from A. -/
theorem generation_lastIssuedWins (s0 : KeyState) (vA vB : String)
    (h : s0.lastApplied ≤ s0.lastIssued) :
    (applyResult
        (applyResult (issueFetch (issueFetch s0).1).1
          (issueFetch (issueFetch s0).1).2 vB)
        (issueFetch s0).2 vA).value = some vB ∧
    applyResult
        (applyResult (issueFetch (issueFetch s0).1).1
          (issueFetch (issueFetch s0).1).2 vB)
        (issueFetch s0).2 vA =
      applyResult (issueFetch (issueFetch s0).1).1
        (issueFetch (issueFetch s0).1).2 vB := by
  have h1 : s0.lastApplied < s0.lastIssued + 1 + 1 := by omega
  have h2 : ¬ (s0.lastIssued + 1 + 1 < s0.lastIssued + 1) := by omega
  simp [issueFetch, applyResult, h1, h2]

/-- Witness for C8 from the empty key state: after the race the value is
the one from B, not from A. -/
theorem generation_lastIssuedWins_witness :
    (applyResult
        (applyResult (issueFetch (issueFetch ⟨none, 0, 0⟩).1).1
          (issueFetch (issueFetch (⟨none, 0, 0⟩ : KeyState)).1).2 "resultB")
        (issueFetch (⟨none, 0, 0⟩ : KeyState)).2 "resultA").value =
      some "resultB" :=
  (generation_lastIssuedWins ⟨none, 0, 0⟩ "resultA" "resultB" (by decide)).1

end VitalSigns
